import Mathlib

/-!
Verification of the SuttonHouse-MarkMon state-normalisation service
(`src/app.py`) against its natural-language specification.

The development shallowly embeds the payload-handling core of `app.py`:
JSON-like payload values, the canonical STATE record, the helper coercions
(`_safe_int`, `_safe_float`, `_normalise_str`, `_clamp_int`), the derived-alert
recomputation (`_recompute_war_from_secret`), the three payload dialects
(`_parse_typed_payload`, `_parse_card_payload`, `_merge_field_payload`), the
two ingestion routes (`/ingest_macro`, `/webhook`), snapshot persistence
(`_save_state_to_disk` / `_load_state_from_disk`), payload acquisition
(`_get_payload_any`) and the `/verify_secret` rate limiter.

Modelling conventions:
* Python/JSON values are the inductive `Val`; a dict payload is an association
  list with unique keys.  `dict.get(k)` returning Python `None` for a missing
  key is modelled by defaulting to `Val.vnull` (Python cannot distinguish a
  missing key from a present `None` through `.get`).
* Python floats are modelled as exact rationals built with `mkRat`; the string
  representation of a non-integral float and scientific-notation float
  literals are not modelled (no claim depends on them).
* `str()` of a dict (Python's repr) is not modelled precisely; no claim
  stringifies a dict.
* Machine timestamps (`time.time()` seconds, millisecond stamps) are exact
  rationals / integers.
* The `monitor`, `nodes` and `stocks` bookkeeping sub-dictionaries of STATE
  are not modelled: no claim mentions them, no modelled field reads them, and
  writes to them cannot alias the modelled keys of the STATE dict.  The
  `/webhook` fast path for types SCADA_STATUS / WATCH mutates only those
  keys plus `_server_ts` before returning early, and is modelled accordingly.
* Logging, socket emission and the authorisation check (`_authorised_webhook`)
  are effect-free on STATE and are omitted.
-/

set_option maxRecDepth 10000

namespace MarkMon

/-- JSON-like Python values as they occur in payloads and in STATE. -/
inductive Val where
  | vnull
  | vbool (b : Bool)
  | vint (n : Int)
  | vfloat (q : ℚ)
  | vstr (s : String)
  | vdict (fields : List (String × Val))

/-- A JSON object payload: an association list with (by convention) unique keys. -/
abbrev Payload := List (String × Val)

/-- First binding of a key in an association list (`k in d` / `d[k]`). -/
def pyLookup (d : Payload) (k : String) : Option Val :=
  match d with
  | [] => none
  | (k', v) :: rest => if k' = k then some v else pyLookup rest k

/-- Python `d.get(k)`: the value if present, else `None`. -/
def pyGet (d : Payload) (k : String) : Val :=
  (pyLookup d k).getD .vnull

/-- Python `k in d`. -/
def hasKey (d : Payload) (k : String) : Bool :=
  (pyLookup d k).isSome

/-- Python truthiness of a value (`bool(v)`). -/
def truthy : Val → Bool
  | .vnull => false
  | .vbool b => b
  | .vint n => decide (n ≠ 0)
  | .vfloat q => decide (q ≠ 0)
  | .vstr s => decide (s ≠ "")
  | .vdict l => !l.isEmpty

/-- Python `a or b` on values: `a` if truthy, else `b`. -/
def vOr (a b : Val) : Val :=
  if truthy a then a else b

/-- ASCII whitespace test matching Python's `str.strip` / `\s` for the
character set exercised by the payloads (space, tab, LF, CR). -/
def isWS (c : Char) : Bool :=
  c.isWhitespace

/-- Python `str.strip()` on a character list. -/
def trimChars (cs : List Char) : List Char :=
  ((cs.dropWhile isWS).reverse.dropWhile isWS).reverse

/-- Python `str.strip()`. -/
def pyTrim (s : String) : String :=
  String.mk (trimChars s.data)

/-- ASCII upper-casing of one character (Python `str.upper` on the ASCII
range; no payload in any claim contains non-ASCII letters). -/
def upChar (c : Char) : Char :=
  if 'a' ≤ c ∧ c ≤ 'z' then Char.ofNat (c.toNat - 32) else c

/-- Python `str.upper()`. -/
def pyUpper (s : String) : String :=
  String.mk (s.data.map upChar)

/-- Worker for `pySplitWS`: accumulate the current word (reversed) while
scanning. -/
def splitWSGo : List Char → List Char → List (List Char)
  | [], acc => if acc.isEmpty then [] else [acc.reverse]
  | c :: rest, acc =>
    if isWS c then
      if acc.isEmpty then splitWSGo rest [] else acc.reverse :: splitWSGo rest []
    else splitWSGo rest (c :: acc)

/-- Python `str.split()` with no argument: split on whitespace runs,
discarding empty pieces. -/
def pySplitWS (s : String) : List String :=
  (splitWSGo s.data []).map String.mk

/-- Numeric value of a list of decimal digit characters. -/
def digitsVal (cs : List Char) : Nat :=
  cs.foldl (fun a c => a * 10 + (c.toNat - 48)) 0

/-- Split a maximal leading run of decimal digits from the rest. -/
def takeDigits : List Char → List Char × List Char
  | [] => ([], [])
  | c :: cs =>
    if c.isDigit then
      let (d, r) := takeDigits cs
      (c :: d, r)
    else ([], c :: cs)

/-- Core of Python `float(str)` after sign removal: `digits`, `digits.digits`,
`digits.` or `.digits`, consuming the whole remaining input.  Scientific
notation and the inf/nan spellings are not modelled (no claim uses them). -/
def parseFloatCore (cs : List Char) : Option ℚ :=
  let (ip, r1) := takeDigits cs
  match r1 with
  | '.' :: r2 =>
    let (fp, r3) := takeDigits r2
    if r3.isEmpty && (!ip.isEmpty || !fp.isEmpty) then
      some (mkRat (digitsVal ip * 10 ^ fp.length + digitsVal fp) (10 ^ fp.length))
    else none
  | [] => if ip.isEmpty then none else some (mkRat (digitsVal ip) 1)
  | _ => none

/-- Python `float(s)` on a string: strip, optional sign, decimal literal. -/
def strToFloat (s : String) : Option ℚ :=
  match (pyTrim s).data with
  | '+' :: cs => parseFloatCore cs
  | '-' :: cs => (parseFloatCore cs).map Neg.neg
  | cs => parseFloatCore cs

/-- Python `int(s)` on a string: strip, optional sign, digits only
(`int("1.5")` raises, unlike `int(float("1.5"))`). -/
def strToInt (s : String) : Option Int :=
  match (pyTrim s).data with
  | '+' :: cs => if cs.isEmpty || !cs.all Char.isDigit then none else some (digitsVal cs)
  | '-' :: cs => if cs.isEmpty || !cs.all Char.isDigit then none else some (-(digitsVal cs : Int))
  | cs => if cs.isEmpty || !cs.all Char.isDigit then none else some (digitsVal cs)

/-- Truncation of a rational toward zero, Python `int(float)`. -/
def ratTrunc (q : ℚ) : Int :=
  if q < 0 then -((-q).floor) else q.floor

/-- Python `str(v)`.  Faithful on `None`, bools, ints and strings — the only
values any claim stringifies.  The repr of a non-integral float and of a dict
are abbreviated (unused by every theorem below). -/
def pyStr : Val → String
  | .vnull => "None"
  | .vbool b => if b then "True" else "False"
  | .vint n => toString n
  | .vfloat q => toString q.num
  | .vstr s => s
  | .vdict _ => "\x7b…\x7d"

/-- Python `float(v)` on a value; `none` models the raised `TypeError` /
`ValueError`. -/
def pyFloat : Val → Option ℚ
  | .vnull => none
  | .vbool b => some (if b then 1 else 0)
  | .vint n => some (n : ℚ)
  | .vfloat q => some q
  | .vstr s => strToFloat s
  | .vdict _ => none

/-- Python `int(v)` on a value (used by `_normalise_server_ts`); note the
string case parses integer literals only. -/
def pyInt : Val → Option Int
  | .vnull => none
  | .vbool b => some (if b then 1 else 0)
  | .vint n => some n
  | .vfloat q => some (ratTrunc q)
  | .vstr s => strToInt s
  | .vdict _ => none

/-- Source `_clamp_int(x, lo, hi) = max(lo, min(hi, x))`. -/
def _clamp_int (x lo hi : Int) : Int :=
  max lo (min hi x)

/-- Source `_safe_float`: `None` for `None`, else `float(v)` with exceptions
swallowed to `None`. -/
def _safe_float (v : Val) : Option ℚ :=
  match v with
  | .vnull => none
  | v => pyFloat v

/-- Source `_safe_int`: `int(float(v))` with `None`/exception giving `None`. -/
def _safe_int (v : Val) : Option Int :=
  (_safe_float v).map ratTrunc

/-- Source `_normalise_str`: `None` for `None`, else `str(v).strip()`,
with the empty result mapped to `None`. -/
def _normalise_str (v : Val) : Option String :=
  match v with
  | .vnull => none
  | v => let s := pyTrim (pyStr v); if s = "" then none else some s

/-- Python `a or b` on optional strings as produced by `_normalise_str`
(which never returns the falsy `""`, so `or` is exactly `Option` choice). -/
def optOr (a b : Option String) : Option String :=
  match a with
  | some x => some x
  | none => b

/-- Python `sep.join(xs)`. -/
def pyJoin (sep : String) : List String → String
  | [] => ""
  | [x] => x
  | x :: xs => x ++ sep ++ pyJoin sep xs

/-- Nested `STATE["card2"]` record (all five keys initialised to `None`). -/
structure Card2S where
  c2state : Val
  c2text : Val
  c2time : Val
  c2tf : Val
  c2ref_id : Val

/-- `STATE["secret"]` block: five instrument slots plus the derived `war`
slot, all JSON values (`None` initially; the dialects store dict packs). -/
structure SecretS where
  vix : Val
  gvz : Val
  buy : Val
  sell : Val
  vold : Val
  war : Val

/-- The modelled canonical STATE.  `regime`, `card1` and `card3` are keys the
`/webhook` pine-authority block may add to the STATE dict; they are modelled
as fields initialised to null (no code path distinguishes the absent key from
a null value among the modelled operations).  The `monitor`/`nodes`/`stocks`
bookkeeping keys are outside the model (see the file header). -/
structure St where
  cycle : Val
  vol : Val
  flow : Val
  count : Val
  sahm : Val
  spx_dd : Val
  regime : Val
  card1 : Val
  card3 : Val
  card2_state : Val
  card2_text : Val
  card2 : Card2S
  secret : SecretS
  server_ts : Val

/-- Initial STATE at process start: everything null. -/
def initSt : St :=
  { cycle := .vnull, vol := .vnull, flow := .vnull, count := .vnull,
    sahm := .vnull, spx_dd := .vnull, regime := .vnull, card1 := .vnull,
    card3 := .vnull, card2_state := .vnull, card2_text := .vnull,
    card2 := { c2state := .vnull, c2text := .vnull, c2time := .vnull,
               c2tf := .vnull, c2ref_id := .vnull },
    secret := { vix := .vnull, gvz := .vnull, buy := .vnull, sell := .vnull,
                vold := .vnull, war := .vnull },
    server_ts := .vnull }

/-- Single-field STATE writes (`STATE["cycle"] = v` and friends).  Each
setter mentions the previous state exactly once, keeping symbolic state
pipelines linear in size. -/
def withCycle (v : Val) (s : St) : St := { s with cycle := v }

/-- Write `STATE["vol"]`. -/
def withVol (v : Val) (s : St) : St := { s with vol := v }

/-- Write `STATE["flow"]`. -/
def withFlow (v : Val) (s : St) : St := { s with flow := v }

/-- Write `STATE["count"]`. -/
def withCount (v : Val) (s : St) : St := { s with count := v }

/-- Write `STATE["sahm"]`. -/
def withSahm (v : Val) (s : St) : St := { s with sahm := v }

/-- Write `STATE["spx_dd"]`. -/
def withSpxDd (v : Val) (s : St) : St := { s with spx_dd := v }

/-- Write `STATE["regime"]`. -/
def withRegime (v : Val) (s : St) : St := { s with regime := v }

/-- Write `STATE["card1"]`. -/
def withCard1 (v : Val) (s : St) : St := { s with card1 := v }

/-- Write `STATE["card3"]`. -/
def withCard3 (v : Val) (s : St) : St := { s with card3 := v }

/-- Write `STATE["card2_state"]`. -/
def withCard2State (v : Val) (s : St) : St := { s with card2_state := v }

/-- Write `STATE["card2_text"]`. -/
def withCard2Text (v : Val) (s : St) : St := { s with card2_text := v }

/-- Replace the nested `STATE["card2"]` record. -/
def withCard2 (c : Card2S) (s : St) : St := { s with card2 := c }

/-- Replace the `STATE["secret"]` block. -/
def withSecret (x : SecretS) (s : St) : St := { s with secret := x }

/-- Write `STATE["_server_ts"]`. -/
def withServerTs (v : Val) (s : St) : St := { s with server_ts := v }

/-- Write `STATE["card2"]["state"]`. -/
def c2WithState (v : Val) (c : Card2S) : Card2S := { c with c2state := v }

/-- Write `STATE["card2"]["text"]`. -/
def c2WithText (v : Val) (c : Card2S) : Card2S := { c with c2text := v }

/-- Write `STATE["card2"]["time"]`. -/
def c2WithTime (v : Val) (c : Card2S) : Card2S := { c with c2time := v }

/-- Write `STATE["card2"]["tf"]`. -/
def c2WithTf (v : Val) (c : Card2S) : Card2S := { c with c2tf := v }

/-- Write `STATE["card2"]["ref_id"]`. -/
def c2WithRefId (v : Val) (c : Card2S) : Card2S := { c with c2ref_id := v }

/-- Write `STATE["secret"]["war"]`. -/
def secWithWar (w : Val) (x : SecretS) : SecretS := { x with war := w }

/-- Write `STATE["secret"]["vix"]`. -/
def secWithVix (v : Val) (x : SecretS) : SecretS := { x with vix := v }

/-- Write `STATE["secret"]["gvz"]`. -/
def secWithGvz (v : Val) (x : SecretS) : SecretS := { x with gvz := v }

/-- Write `STATE["secret"]["buy"]`. -/
def secWithBuy (v : Val) (x : SecretS) : SecretS := { x with buy := v }

/-- Write `STATE["secret"]["sell"]`. -/
def secWithSell (v : Val) (x : SecretS) : SecretS := { x with sell := v }

/-- Write `STATE["secret"]["vold"]`. -/
def secWithVold (v : Val) (x : SecretS) : SecretS := { x with vold := v }

/-- Lookup in a dict value, Python `v.get(k)`.  A truthy non-dict receiver
raises `AttributeError` in the source; the stub `vnull` result for that case
is fenced off by the `LevelSafe` hypotheses of every theorem that reaches it. -/
def dictGet (v : Val) (k : String) : Val :=
  match v with
  | .vdict l => pyGet l k
  | _ => .vnull

/-- Python `(v or \x7b\x7d)` used on the secret slots: falsy values are
replaced by the empty dict. -/
def orEmptyDict (v : Val) : Val :=
  if truthy v then v else .vdict []

/-- Source `(STATE["secret"].get(x) or \x7b\x7d).get("level")`. -/
def getLevel (v : Val) : Val :=
  dictGet (orEmptyDict v) "level"

/-- A secret slot on which `.get` cannot raise: falsy or an actual dict
(every value the source itself stores is `None` or a dict pack). -/
def LevelSafe (v : Val) : Prop :=
  truthy v = true → ∃ l, v = .vdict l

/-- Python `isinstance(v, int)` with the carried integer; `bool` is a
subclass of `int` in Python, so `True`/`False` count as `1`/`0`. -/
def asPyInt : Val → Option Int
  | .vint n => some n
  | .vbool b => some (if b then 1 else 0)
  | _ => none

/-- Source `_recompute_war_from_secret` (app.py lines 368–390): derives
`secret.war` from `secret.vix.level` and `secret.gvz.level` only. -/
def _recompute_war_from_secret (s : St) : St :=
  let vixL := getLevel s.secret.vix
  let gvzL := getLevel s.secret.gvz
  let vixTrig : Bool :=
    match asPyInt vixL with
    | some n => decide (n ≤ 4)
    | none => false
  let gvzTrig : Bool :=
    match asPyInt gvzL with
    | some m => decide (m ≤ 3) || decide (8 ≤ m)
    | none => false
  let active := vixTrig || gvzTrig
  let reasons : List String :=
    (if vixTrig then ["Institutional X: " ++ pyStr vixL] else []) ++
    (if gvzTrig then ["Institutional Y: " ++ pyStr gvzL] else [])
  withSecret (secWithWar (.vdict [("active", .vbool active),
    ("reason", .vstr (pyJoin ", " reasons))]) s.secret) s

/-- Source `_merge_field_payload` (app.py lines 396–435): the flat-field
dialect merge with alias fallbacks and sparse, fail-soft coercions. -/
def _merge_field_payload (d : Payload) (s : St) : St :=
  let cycle0 := _normalise_str (pyGet d "cycle")
  let vol0 := _normalise_str (pyGet d "vol")
  let flow0 := _normalise_str (pyGet d "flow")
  let count0 := pyGet d "count"
  let sahm0 := pyGet d "sahm"
  let cycle_alt := optOr (_normalise_str (pyGet d "regime")) (_normalise_str (pyGet d "cycle_regime"))
  let vol_alt := optOr (_normalise_str (pyGet d "volatility")) (_normalise_str (pyGet d "vix_state"))
  let flow_alt := optOr (_normalise_str (pyGet d "rotation")) (_normalise_str (pyGet d "capital_rotation"))
  let count_alt := vOr (pyGet d "maturity") (pyGet d "cycle_maturity")
  let sahm_alt := vOr (pyGet d "sahm_value") (pyGet d "sahm_trigger")
  let cycle1 := optOr cycle0 cycle_alt
  let vol1 := optOr vol0 vol_alt
  let flow1 := optOr flow0 flow_alt
  let count1 := match count0 with | .vnull => count_alt | v => v
  let sahm1 := match sahm0 with | .vnull => sahm_alt | v => v
  let s := match cycle1 with
    | some c => withCycle (.vstr (pyUpper c)) s
    | none => s
  let s := match vol1 with
    | some v => withVol (.vstr (pyUpper v)) s
    | none => s
  let s := match flow1 with
    | some f => withFlow (.vstr f) s
    | none => s
  let s := match count1 with
    | .vnull => s
    | v => match _safe_int v with
      | some c => withCount (.vint (_clamp_int c 0 100)) s
      | none => s
  let s := match sahm1 with
    | .vnull => s
    | v => match _safe_float v with
      | some q => withSahm (.vfloat q) s
      | none => s
  s

/-- Absence sentinel used by the typed dialect's `pick` and the card 5–9
branch: Python `v in (None, "", "NA", "na")`. -/
def isAbsentSentinel : Val → Bool
  | .vnull => true
  | .vstr s => s = "" || s = "NA" || s = "na"
  | _ => false

/-- The typed dialect's `pick(*keys)` helper: first key that is present with
a non-sentinel value; `None` otherwise. -/
def pick (d : Payload) (keys : List String) : Val :=
  match keys with
  | [] => .vnull
  | k :: rest =>
    if hasKey d k && !isAbsentSentinel (pyGet d k) then pyGet d k else pick d rest

/-- Source `_parse_typed_payload` (app.py lines 443–565).  Handles the CARD1
/ CARD2 / CARD3 / CARD4 families only; any other `type` value falls through
to the final silent-ignore return. -/
def _parse_typed_payload (d : Payload) (s : St) : St :=
  match _normalise_str (pyGet d "type") with
  | none => s
  | some t =>
    let typ := pyUpper (pyTrim t)
    if typ = "CARD1" ∨ typ = "MACRO_CARD1" ∨ typ = "REGIME_VOL" then
      let cycle := pick d ["cycle", "regime", "cycle_regime"]
      let vol := pick d ["vol", "volatility", "vix_state"]
      let s := match cycle with
        | .vnull => s
        | c => withCycle (.vstr (pyUpper (pyTrim (pyStr c)))) s
      let s := match vol with
        | .vnull => s
        | v => withVol (.vstr (pyUpper (pyTrim (pyStr v)))) s
      s
    else if typ = "CARD2" ∨ typ = "MACRO_CARD2" ∨ typ = "CAPITAL_ROTATION" then
      let st := pick d ["card2_state", "state", "bias", "signal", "colour", "color"]
      let tx := pick d ["card2_text", "text", "msg", "message", "flow"]
      let stn : Option String :=
        match st with
        | .vnull => none
        | v => some (pyUpper (pyTrim (pyStr v)))
      let txn : Option String :=
        match tx with
        | .vnull => none
        | v => some (pyTrim (pyStr v))
      let s := match stn with
        | some v => withCard2State (.vstr v) s
        | none => s
      let s := match txn with
        | some v => withCard2Text (.vstr v) s
        | none => s
      let s := match txn with
        | some v => if v ≠ "" then withFlow (.vstr v) s else s
        | none => s
      let c := s.card2
      let c := match stn with
        | some v => c2WithState (.vstr v) c
        | none => c
      let c := match txn with
        | some v => c2WithText (.vstr v) c
        | none => c
      let c := if hasKey d "time" && !isAbsentSentinel (pyGet d "time") then
          c2WithTime (pyGet d "time") c else c
      let c := if hasKey d "tf" && !isAbsentSentinel (pyGet d "tf") then
          c2WithTf (pyGet d "tf") c else c
      let c := if hasKey d "ref_id" && !isAbsentSentinel (pyGet d "ref_id") then
          c2WithRefId (pyGet d "ref_id") c else c
      withCard2 c s
    else if typ = "CARD3" ∨ typ = "MACRO_CARD3" ∨ typ = "CYCLE_CLOCK" then
      let count := pick d ["count", "maturity", "cycle_maturity"]
      let cycle := pick d ["cycle", "regime", "cycle_regime"]
      let s := match count with
        | .vnull => s
        | v => match _safe_int v with
          | some c => withCount (.vint (_clamp_int c 0 100)) s
          | none => s
      let s := match cycle with
        | .vnull => s
        | c => withCycle (.vstr (pyUpper (pyTrim (pyStr c)))) s
      s
    else if typ = "CARD4" ∨ typ = "MACRO_CARD4" ∨ typ = "RECESSION_PULSE" then
      let sahm := pick d ["sahm", "sahm_value", "sahm_trigger"]
      let dd := pick d ["spx_dd", "spxDrawdown", "dd", "drawdown"]
      let s := match sahm with
        | .vnull => s
        | v => match _safe_float v with
          | some q => withSahm (.vfloat q) s
          | none => s
      let s := match dd with
        | .vnull => s
        | v => match pyFloat v with
          | some q => withSpxDd (.vfloat q) s
          | none => s
      s
    else s

/-- Case-insensitive literal keyword match at the head of the input; returns
the remaining characters.  `kw` is given lower-case. -/
def matchKeywordCI (kw : List Char) (cs : List Char) : Option (List Char) :=
  match kw, cs with
  | [], rest => some rest
  | _ :: _, [] => none
  | k :: ks, c :: rest => if c.toLower = k then matchKeywordCI ks rest else none

/-- Character class `[A-Za-z ]` of the card-1 label patterns. -/
def isAlphaSpace (c : Char) : Bool :=
  ('A' ≤ c && c ≤ 'Z') || ('a' ≤ c && c ≤ 'z') || c = ' '

/-- Tail `\s*:\s*([A-Za-z ]+)` of the card-1 label regexes, applied after the
keyword.  The greedy `\s*` before the group backtracks when the character
after the whitespace run is not in `[A-Za-z ]`: the only whitespace character
also in the class is the space, and re-running the greedy search from the
longest prefix downward always yields the single-space group `" "` as soon
as the run contains a space (the next shorter prefix position holds either a
space — group `" "` — or a non-class whitespace character, which stops the
group immediately after that one space).  Hence the match result is: the
plain group after the whole run when non-empty, else `" "` when the run
contains a space, else failure at this position. -/
def labelTail (r1 : List Char) : Option String :=
  let r2 := r1.dropWhile isWS
  match r2 with
  | ':' :: r3 =>
    let w := r3.takeWhile isWS
    let rest := r3.dropWhile isWS
    let g := rest.takeWhile isAlphaSpace
    if !g.isEmpty then some (String.mk g)
    else if w.contains ' ' then some " "
    else none
  | _ => none

/-- One alternation attempt of `(?:KW1|KW2)\s*:\s*([A-Za-z ]+)` at a fixed
position: keywords are tried left to right, and a keyword whose tail fails
lets the next keyword try at the same position (regex alternation). -/
def matchLabelAt (kws : List (List Char)) (cs : List Char) : Option String :=
  match kws with
  | [] => none
  | kw :: rest =>
    match matchKeywordCI kw cs with
    | some r1 =>
      match labelTail r1 with
      | some g => some g
      | none => matchLabelAt rest cs
    | none => matchLabelAt rest cs

/-- Leftmost search (`re.search`) for a card-1 label pattern. -/
def findLabel (kws : List (List Char)) : List Char → Option String
  | [] => none
  | c :: cs =>
    match matchLabelAt kws (c :: cs) with
    | some g => some g
    | none => findLabel kws cs

/-- Attempt `(\d+(\.\d+)?)\s*%` at a fixed position, returning group 1.
Backtracking inside the number cannot rescue a failed attempt: a shorter
digit run leaves the next character a digit, which is neither `%` nor
whitespace, so maximal munch is exact here. -/
def matchPercentAt (cs : List Char) : Option String :=
  let (ip, r1) := takeDigits cs
  if ip.isEmpty then none
  else
    let (fp, r2) :=
      match r1 with
      | '.' :: rest =>
        let (f, r) := takeDigits rest
        if f.isEmpty then (([] : List Char), r1) else ('.' :: f, r)
      | _ => (([] : List Char), r1)
    let r3 := r2.dropWhile isWS
    match r3 with
    | '%' :: _ => some (String.mk (ip ++ fp))
    | _ => none

/-- Leftmost search for the card-3 percentage pattern `(\d+(\.\d+)?)\s*%`. -/
def findPercent : List Char → Option String
  | [] => none
  | c :: cs =>
    match matchPercentAt (c :: cs) with
    | some g => some g
    | none => findPercent cs

/-- Tail `\s*:\s*([0-9]*\.?[0-9]+)` of the card-4 SAHM regex after the
keyword.  With digits `D` then optionally `.` then digits `E` after the
whitespace: a fractional part is kept when `E` is non-empty; otherwise the
greedy `[0-9]*` backtracks one digit so `[0-9]+` can close the match, giving
exactly `D`; no digits at all fails the position. -/
def sahmTail (r1 : List Char) : Option String :=
  let r2 := r1.dropWhile isWS
  match r2 with
  | ':' :: r3 =>
    let r4 := r3.dropWhile isWS
    let (dIn, r5) := takeDigits r4
    match r5 with
    | '.' :: r6 =>
      let (e, _) := takeDigits r6
      if e.isEmpty then (if dIn.isEmpty then none else some (String.mk dIn))
      else some (String.mk (dIn ++ '.' :: e))
    | _ => if dIn.isEmpty then none else some (String.mk dIn)
  | _ => none

/-- Leftmost search for `SAHM\s*:\s*([0-9]*\.?[0-9]+)` (case-insensitive). -/
def findSahm : List Char → Option String
  | [] => none
  | c :: cs =>
    match matchKeywordCI ['s', 'a', 'h', 'm'] (c :: cs) with
    | some r1 =>
      match sahmTail r1 with
      | some g => some g
      | none => findSahm cs
    | none => findSahm cs

/-- Python `.upper()` on a stored STATE value in the card-1 fallback; a
non-string receiver raises `AttributeError` in the source (reachable only
when a previous `/webhook` pine write stored an integer cycle); no theorem
exercises that path. -/
def pyUpperVal : Val → Val
  | .vstr s => .vstr (pyUpper s)
  | v => v

/-- Source `_parse_card_payload` (app.py lines 570–637): the numbered-card
dialect.  Cards 5–9 build instrument packs and trigger the alert
recomputation. -/
def _parse_card_payload (d : Payload) (s : St) : St :=
  match _safe_int (pyGet d "card") with
  | none => s
  | some card_n =>
    let msg := (_normalise_str (pyGet d "msg")).getD ""
    if card_n = 1 ∧ msg ≠ "" then
      let s := match findLabel [['c','y','c','l','e'], ['r','e','g','i','m','e']] msg.data with
        | some g => withCycle (.vstr (pyUpper (pyTrim g))) s
        | none => s
      let s := match findLabel [['v','o','l'], ['v','o','l','a','t','i','l','i','t','y']] msg.data with
        | some g => withVol (.vstr (pyUpper (pyTrim g))) s
        | none => s
      if !truthy s.cycle || !truthy s.vol then
        let parts := pySplitWS msg
        if parts.length ≥ 2 then
          let s := withCycle (pyUpperVal (vOr s.cycle (.vstr (parts.headD "")))) s
          let s := withVol (pyUpperVal (vOr s.vol (.vstr (parts.getLastD "")))) s
          s
        else s
      else s
    else if card_n = 2 ∧ msg ≠ "" then
      withFlow (.vstr msg) s
    else if card_n = 3 then
      let s := match findPercent msg.data with
        | some g =>
          match strToFloat g with
          | some q => withCount (.vint (_clamp_int (ratTrunc q) 0 100)) s
          | none => s
        | none => s
      match optOr (_normalise_str (pyGet d "regime")) (_normalise_str (pyGet d "cycle")) with
      | some r => withCycle (.vstr (pyUpper r)) s
      | none => s
    else if card_n = 4 then
      match findSahm msg.data with
      | some g =>
        match strToFloat g with
        | some q => withSahm (.vfloat q) s
        | none => s
      | none => s
    else if card_n = 5 ∨ card_n = 6 ∨ card_n = 7 ∨ card_n = 8 ∨ card_n = 9 then
      let level : Val :=
        if !isAbsentSentinel (pyGet d "level") then
          match _safe_int (pyGet d "level") with
          | some n => .vint n
          | none => .vnull
        else .vnull
      let value : Val :=
        if !isAbsentSentinel (pyGet d "value") then
          match _safe_float (pyGet d "value") with
          | some q => .vfloat q
          | none => .vnull
        else .vnull
      let statePart := (_normalise_str (pyGet d "state")).getD ""
      let pack : Val := .vdict
        [("name", .vstr (pyUpper ((_normalise_str (pyGet d "name")).getD ""))),
         ("symbol", .vstr ((_normalise_str (pyGet d "symbol")).getD "")),
         ("state", .vstr statePart),
         ("level", level),
         ("value", value)]
      let sec := s.secret
      let sec :=
        if card_n = 5 then secWithVix pack sec
        else if card_n = 6 then secWithGvz pack sec
        else if card_n = 7 then secWithBuy pack sec
        else if card_n = 8 then secWithSell pack sec
        else secWithVold (.vdict [("level", level), ("state", .vstr statePart)]) sec
      _recompute_war_from_secret (withSecret sec s)
    else s

/-- Envelope unwrapping shared by both routes: replace the payload by its
`state` / `payload` / `data` member when that member is a dict (checked in
that order, one level only). -/
def unwrapEnvelope (d : Payload) : Payload :=
  match pyLookup d "state" with
  | some (.vdict l) => l
  | _ =>
    match pyLookup d "payload" with
    | some (.vdict l) => l
    | _ =>
      match pyLookup d "data" with
      | some (.vdict l) => l
      | _ => d

/-- Route `POST /ingest_macro` (app.py lines 707–769), effect on the modelled
STATE under the lock, for an already-acquired dict payload `p` at server time
`now` (milliseconds).

Source fidelity notes, in source order:
* envelope unwrap, then `STATE["_server_ts"]` stamp;
* `_parse_typed_payload` when a `type` key is present (its try/except is
  dead weight: the embedded function is total);
* `_parse_card_payload` when a `card` key is present;
* the source then has a bare comment `# field payloads` with no call —
  `_merge_field_payload` is never invoked on this route;
* the secret block copies each of the six keys verbatim when present in
  `payload["secret"]`; a copied `war` value is immediately overwritten by the
  unconditional `_recompute_war_from_secret()` that follows;
* the call to `_apply_sutton_house_normalisation()` raises `NameError`
  (the function does not exist anywhere in the file) and is swallowed by its
  `try/except`, a no-op;
* `_save_state_to_disk()` and the socket emission do not change STATE. -/
def ingestRoute (now : Int) (p : Payload) (s0 : St) : St :=
  let d := unwrapEnvelope p
  let s := withServerTs (.vint now) s0
  let s := if hasKey d "type" then _parse_typed_payload d s else s
  let s := if hasKey d "card" then _parse_card_payload d s else s
  let s :=
    match pyLookup d "secret" with
    | some (.vdict sd) =>
      let upd := fun (cur : Val) (k : String) =>
        match pyLookup sd k with
        | some v => v
        | none => cur
      let sec : SecretS :=
        { vix := upd s.secret.vix "vix", gvz := upd s.secret.gvz "gvz",
          buy := upd s.secret.buy "buy", sell := upd s.secret.sell "sell",
          vold := upd s.secret.vold "vold", war := upd s.secret.war "war" }
      withSecret sec s
    | _ => s
  _recompute_war_from_secret s

/-- Route `POST /webhook` (app.py lines 780–1004), effect on the modelled
STATE for an already-acquired dict payload.

Source fidelity notes, in source order:
* envelope unwrap, `_server_ts` stamp;
* the SCADA_STATUS / WATCH fast path touches only the unmodelled
  `stocks`/`nodes`/`monitor` keys and returns early, so its modelled effect
  is the timestamp alone;
* the pine-authority dict `pine_allow` is built key by key (all target keys
  distinct) and applied with `STATE.update`; `cycle` is clamped to [0,120]
  after `int(float(...))`; the drawdown aliases are copied raw; a key whose
  conversion raises is skipped;
* the canonical CARD2 section: for `type == "CARD2"` reads flat
  `state`/`text`, otherwise a nested `card2` dict, into `STATE["card2"]`;
* `_parse_typed_payload` when `type` present; `_parse_card_payload` when
  `card` present unless the card number converts to exactly 2;
* `_recompute_war_from_secret`; monitor bookkeeping and save/emit follow,
  unmodelled / STATE-neutral.

The handler is modelled in stages: `webhookPine` (the pine-authority block),
`webhookCard2Stage` (the canonical CARD2 section), then the dialect dispatch
inside `webhookRoute` itself. -/
def webhookPine (d : Payload) (s : St) : St :=
  let s := if hasKey d "regime" then withRegime (.vstr (pyUpper (pyStr (pyGet d "regime")))) s else s
  let s := if hasKey d "vol" then withVol (.vstr (pyUpper (pyStr (pyGet d "vol")))) s else s
  let s := if hasKey d "card1" then withCard1 (.vstr (pyStr (pyGet d "card1"))) s else s
  let s := if hasKey d "cycle" then
      match pyFloat (pyGet d "cycle") with
      | some q =>
        let c := ratTrunc q
        let c := if c < 0 then 0 else c
        let c := if c > 120 then 120 else c
        withCycle (.vint c) s
      | none => s
    else s
  let s := if hasKey d "card3" then withCard3 (.vstr (pyStr (pyGet d "card3"))) s else s
  let s := if hasKey d "rot_dir" then withFlow (.vstr (pyStr (pyGet d "rot_dir"))) s else s
  let s := if hasKey d "sahm" then
      match pyFloat (pyGet d "sahm") with
      | some q => withSahm (.vfloat q) s
      | none => s
    else s
  match pyLookup d "spx_dd" with
  | some v => withSpxDd v s
  | none =>
    match pyLookup d "spxDrawdown" with
    | some v => withSpxDd v s
    | none =>
      match pyLookup d "dd" with
      | some v => withSpxDd v s
      | none =>
        match pyLookup d "drawdown" with
        | some v => withSpxDd v s
        | none => s

/-- The state/text/time/tf/ref_id writes of the canonical CARD2 section,
shared verbatim between the flat (`type == "CARD2"`) and the nested
(`data["card2"]`) shapes, reading from the dict `src`. -/
def card2ApplyFields (src : Payload) (c : Card2S) : Card2S :=
  let st := pyGet src "state"
  let tx := pyGet src "text"
  let c := match st with
    | .vnull => c
    | v => c2WithState (.vstr (pyUpper (pyTrim (pyStr v)))) c
  let c := match tx with
    | .vnull => c
    | v => c2WithText (.vstr (pyTrim (pyStr v))) c
  let c := if hasKey src "time" && !isAbsentSentinel (pyGet src "time") then
      c2WithTime (pyGet src "time") c else c
  let c := if hasKey src "tf" && !isAbsentSentinel (pyGet src "tf") then
      c2WithTf (pyGet src "tf") c else c
  if hasKey src "ref_id" && !isAbsentSentinel (pyGet src "ref_id") then
    c2WithRefId (pyGet src "ref_id") c
  else c

/-- The canonical CARD2 section of `/webhook` (app.py lines 940–975). -/
def webhookCard2Stage (typ : String) (d : Payload) (s : St) : St :=
  if typ = "CARD2" then
    withCard2 (card2ApplyFields d s.card2) s
  else
    match pyLookup d "card2" with
    | some (.vdict c2) => withCard2 (card2ApplyFields c2 s.card2) s
    | _ => s

def webhookRoute (now : Int) (p : Payload) (s0 : St) : St :=
  let d := unwrapEnvelope p
  let s := withServerTs (.vint now) s0
  let typ := pyUpper (pyTrim (pyStr (vOr (pyGet d "type") (.vstr ""))))
  if typ = "SCADA_STATUS" ∨ typ = "WATCH" then
    s
  else
    let s := webhookPine d s
    let s := webhookCard2Stage typ d s
    let s := if hasKey d "type" then _parse_typed_payload d s else s
    let s := if hasKey d "card" then
        match _safe_int (pyGet d "card") with
        | some 2 => s
        | _ => _parse_card_payload d s
      else s
    _recompute_war_from_secret s

/-- Serialisation of the modelled STATE as written by `_save_state_to_disk`
(app.py lines 346–364): one JSON document mirroring STATE.  Only the keys the
loader consults (plus `card2`, to witness that it is saved yet not restored)
are listed; JSON round-tripping of these values is exact. -/
def _save_state_to_disk (s : St) : Val :=
  .vdict
    [("cycle", s.cycle), ("vol", s.vol), ("flow", s.flow),
     ("count", s.count), ("sahm", s.sahm),
     ("card2", .vdict [("state", s.card2.c2state), ("text", s.card2.c2text),
                       ("time", s.card2.c2time), ("tf", s.card2.c2tf),
                       ("ref_id", s.card2.c2ref_id)]),
     ("secret", .vdict [("vix", s.secret.vix), ("gvz", s.secret.gvz),
                        ("buy", s.secret.buy), ("sell", s.secret.sell),
                        ("vold", s.secret.vold), ("war", s.secret.war)]),
     ("_server_ts", s.server_ts)]

/-- Source `_normalise_server_ts` (app.py lines 302–313): coerce to int,
promote second-resolution stamps to milliseconds, `None` on failure. -/
def _normalise_server_ts (v : Val) : Option Int :=
  match pyInt v with
  | some t => some (if t < 1000000000000 then t * 1000 else t)
  | none => none

/-- Number of seconds in the 45-day staleness window (`STATE_MAX_AGE_SECS`). -/
def STATE_MAX_AGE_SECS : ℚ := 3888000

/-- The loader's staleness test: with a truthy normalised stamp `ts` (ms),
discard when `time.time() - ts/1000 > STATE_MAX_AGE_SECS`. -/
def snapshotStale (ts : Option Int) (nowSecs : ℚ) : Bool :=
  match ts with
  | some t => if t ≠ 0 then decide (STATE_MAX_AGE_SECS < nowSecs - (t : ℚ) / 1000) else false
  | none => false

/-- Source `_load_state_from_disk` (app.py lines 316–343) applied to the
decoded snapshot document `cached`, hydrating the running STATE `s` at wall
clock `nowSecs`.  Restores `cycle`/`vol`/`flow`/`count`/`sahm`/`_server_ts`
verbatim when the key is present (`monitor` likewise, unmodelled), and every
one of the six secret keys via `.get` (missing ones become null).  `card2`
and `spx_dd` are never restored. -/
def _load_state_from_disk (cached : Val) (nowSecs : ℚ) (s : St) : St :=
  match cached with
  | .vdict cd =>
    if snapshotStale (_normalise_server_ts (pyGet cd "_server_ts")) nowSecs then s
    else
      let s := match pyLookup cd "cycle" with
        | some v => withCycle v s
        | none => s
      let s := match pyLookup cd "vol" with
        | some v => withVol v s
        | none => s
      let s := match pyLookup cd "flow" with
        | some v => withFlow v s
        | none => s
      let s := match pyLookup cd "count" with
        | some v => withCount v s
        | none => s
      let s := match pyLookup cd "sahm" with
        | some v => withSahm v s
        | none => s
      let s := match pyLookup cd "_server_ts" with
        | some v => withServerTs v s
        | none => s
      let s := match pyLookup cd "secret" with
        | some (.vdict sd) =>
          let sec : SecretS :=
            { vix := pyGet sd "vix", gvz := pyGet sd "gvz",
              buy := pyGet sd "buy", sell := pyGet sd "sell",
              vold := pyGet sd "vold", war := pyGet sd "war" }
          withSecret sec s
        | _ => s
      s
  | _ => s

/-- Failure raised when no payload-shaping step succeeds. -/
inductive PayloadErr where
  | invalid

/-- Source `_get_payload_any` (app.py lines 269–299).  `jloads` models
`json.loads` on a string (`none` = raise); `jsonBody` is the framework's
silent JSON parse of the body; `form` the decoded form fields; `raw` the
decoded raw body.  A one-field form whose value starts with a brace is
re-parsed; on success-with-dict that dict is returned, otherwise the form
map itself (`return d` follows the swallowed exception).  The raw-body path
runs only when there is no form data; both of its failure modes (a parse
error, or a non-dict parse falling through to the `raise`) surface as the
route-level 400. -/
def _get_payload_any (jloads : String → Option Val) (jsonBody : Option Val)
    (form : List (String × String)) (raw : String) : Except PayloadErr Payload :=
  match jsonBody with
  | some (.vdict l) => .ok l
  | _ =>
    if form.isEmpty then
      let rtrim := pyTrim raw
      if rtrim.data.headD ' ' = '\x7b' ∧ rtrim.data.getLastD ' ' = '\x7d' then
        match jloads rtrim with
        | some (.vdict l) => .ok l
        | _ => .error .invalid
      else .error .invalid
    else
      let asMap : Payload := form.map (fun kv => (kv.1, .vstr kv.2))
      match form with
      | [(_, onlyVal)] =>
        if (pyTrim onlyVal).data.headD ' ' = '\x7b' then
          match jloads onlyVal with
          | some (.vdict l) => .ok l
          | _ => .ok asMap
        else .ok asMap
      | _ => .ok asMap

/-- Outcome of one `POST /verify_secret` request: the retained attempt
history for the client and the HTTP status with its `ok` body field. -/
structure VerifyOut where
  history : List ℚ
  status : Nat
  okField : Bool

/-- Source `verify_secret` (app.py lines 1030–1043) for one client: prune the
attempt history to the rolling 5-minute window, refuse with 429 at 6 or more
retained attempts, otherwise compare the supplied password against the vault
password — a match returns 200 without recording the attempt, a mismatch
records the attempt and returns 401. -/
def verify_secret (stored : List ℚ) (now : ℚ) (password : Option String)
    (vault : String) : VerifyOut :=
  let pruned := stored.filter (fun t => decide (now - t < 300))
  if 6 ≤ pruned.length then
    { history := pruned, status := 429, okField := false }
  else if password = some vault then
    { history := pruned, status := 200, okField := true }
  else
    { history := pruned ++ [now], status := 401, okField := false }

/-- Fold a sequence of `/verify_secret` requests for one client, collecting
the status codes. -/
def runAttempts (vault : String) (hist : List ℚ)
    : List (ℚ × Option String) → List ℚ × List Nat
  | [] => (hist, [])
  | (now, pw) :: rest =>
    let out := verify_secret hist now pw vault
    let (h, codes) := runAttempts vault out.history rest
    (h, out.status :: codes)

/-! ## Claim C1 — derived-alert recomputation -/

/-- Conclusion of claim C1 at state `s`: the recomputed `secret.war` is a
two-field pack whose `active` flag matches the threshold rule, whose `reason`
is the comma-joined clause list (one clause per triggering condition, naming
the instrument and its level) and is empty when inactive; the recomputation
is idempotent, is a pure function of the two levels, and writes nothing but
`secret.war`. -/
def C1Statement (s : St) : Prop :=
  ∃ a r,
    (_recompute_war_from_secret s).secret.war
      = .vdict [("active", .vbool a), ("reason", .vstr r)]
    ∧ (a = true ↔
        (∃ n, asPyInt (getLevel s.secret.vix) = some n ∧ n ≤ 4)
        ∨ (∃ m, asPyInt (getLevel s.secret.gvz) = some m ∧ (m ≤ 3 ∨ 8 ≤ m)))
    ∧ ((∃ n, asPyInt (getLevel s.secret.vix) = some n ∧ n ≤ 4) →
       (∃ m, asPyInt (getLevel s.secret.gvz) = some m ∧ (m ≤ 3 ∨ 8 ≤ m)) →
        r = "Institutional X: " ++ pyStr (getLevel s.secret.vix)
            ++ ", " ++ ("Institutional Y: " ++ pyStr (getLevel s.secret.gvz)))
    ∧ ((∃ n, asPyInt (getLevel s.secret.vix) = some n ∧ n ≤ 4) →
       ¬ (∃ m, asPyInt (getLevel s.secret.gvz) = some m ∧ (m ≤ 3 ∨ 8 ≤ m)) →
        r = "Institutional X: " ++ pyStr (getLevel s.secret.vix))
    ∧ (¬ (∃ n, asPyInt (getLevel s.secret.vix) = some n ∧ n ≤ 4) →
       (∃ m, asPyInt (getLevel s.secret.gvz) = some m ∧ (m ≤ 3 ∨ 8 ≤ m)) →
        r = "Institutional Y: " ++ pyStr (getLevel s.secret.gvz))
    ∧ (a = false → r = "")
    ∧ _recompute_war_from_secret (_recompute_war_from_secret s) = _recompute_war_from_secret s
    ∧ (∀ s2 : St, getLevel s2.secret.vix = getLevel s.secret.vix →
        getLevel s2.secret.gvz = getLevel s.secret.gvz →
        (_recompute_war_from_secret s2).secret.war = (_recompute_war_from_secret s).secret.war)
    ∧ (_recompute_war_from_secret s).cycle = s.cycle
    ∧ (_recompute_war_from_secret s).vol = s.vol
    ∧ (_recompute_war_from_secret s).flow = s.flow
    ∧ (_recompute_war_from_secret s).count = s.count
    ∧ (_recompute_war_from_secret s).sahm = s.sahm
    ∧ (_recompute_war_from_secret s).spx_dd = s.spx_dd
    ∧ (_recompute_war_from_secret s).regime = s.regime
    ∧ (_recompute_war_from_secret s).card1 = s.card1
    ∧ (_recompute_war_from_secret s).card3 = s.card3
    ∧ (_recompute_war_from_secret s).card2_state = s.card2_state
    ∧ (_recompute_war_from_secret s).card2_text = s.card2_text
    ∧ (_recompute_war_from_secret s).card2 = s.card2
    ∧ (_recompute_war_from_secret s).server_ts = s.server_ts
    ∧ (_recompute_war_from_secret s).secret.vix = s.secret.vix
    ∧ (_recompute_war_from_secret s).secret.gvz = s.secret.gvz
    ∧ (_recompute_war_from_secret s).secret.buy = s.secret.buy
    ∧ (_recompute_war_from_secret s).secret.sell = s.secret.sell
    ∧ (_recompute_war_from_secret s).secret.vold = s.secret.vold

/-- C1 (confirmed).  The derived-alert recomputation is a pure function of
`secret.vix.level` and `secret.gvz.level`: after it runs, `secret.war.active`
is true iff `vix.level` is an integer ≤ 4, or `gvz.level` is an integer that
is ≤ 3 or ≥ 8; `secret.war.reason` comma-joins one clause per triggering
condition, naming the instrument ("Institutional X"/"Institutional Y") and
its level, and is empty when `active` is false; the recomputation is
idempotent and writes nothing but `secret.war`.  The `LevelSafe` hypotheses
restrict to states whose secret slots the Python code can read without
raising (`None` or dict — the only shapes the code itself ever stores). -/
theorem C1_derived_alert_recompute (s : St)
    (_hv : LevelSafe s.secret.vix) (_hg : LevelSafe s.secret.gvz) :
    C1Statement s := by
  unfold C1Statement
  refine ⟨_, _, rfl, ?_, ?_, ?_, ?_, ?_, rfl, ?_, rfl, rfl, rfl, rfl, rfl,
    rfl, rfl, rfl, rfl, rfl, rfl, rfl, rfl, rfl, rfl, rfl, rfl, rfl⟩
  · rcases hA : asPyInt (getLevel s.secret.vix) with _ | n <;>
      rcases hB : asPyInt (getLevel s.secret.gvz) with _ | m <;>
      simp [_recompute_war_from_secret, hA, hB]
  · rintro ⟨n, hn, h4⟩ ⟨m, hm, h38⟩
    rcases h38 with h | h <;> simp [_recompute_war_from_secret, hn, hm, h4, h, pyJoin]
  · rintro ⟨n, hn, h4⟩ hy
    rcases hB : asPyInt (getLevel s.secret.gvz) with _ | m
    · simp [_recompute_war_from_secret, hn, hB, h4, pyJoin]
    · have hm3 : ¬ (m ≤ 3) := fun h => hy ⟨m, hB, Or.inl h⟩
      have hm8 : ¬ (8 ≤ m) := fun h => hy ⟨m, hB, Or.inr h⟩
      simp [_recompute_war_from_secret, hn, hB, h4, hm3, hm8, pyJoin]
  · intro hx ⟨m, hm, h38⟩
    rcases hA : asPyInt (getLevel s.secret.vix) with _ | n
    · rcases h38 with h | h <;> simp [_recompute_war_from_secret, hA, hm, h, pyJoin]
    · have hn4 : ¬ (n ≤ 4) := fun h => hx ⟨n, hA, h⟩
      rcases h38 with h | h <;>
        simp [_recompute_war_from_secret, hA, hm, hn4, h, pyJoin]
  · intro ha
    rw [Bool.or_eq_false_iff] at ha
    simp [ha.1, ha.2, pyJoin]
  · intro s2 h1 h2
    simp [_recompute_war_from_secret, withSecret, secWithWar, h1, h2]

/-- Concrete state for the C1 witness: vix level 3, gvz level 5. -/
def c1WitnessSt : St :=
  { initSt with secret := { initSt.secret with
      vix := .vdict [("level", .vint 3)], gvz := .vdict [("level", .vint 5)] } }

/-- Witness for C1: both `LevelSafe` hypotheses hold at a concrete state and
the theorem applies there. -/
theorem C1_derived_alert_recompute_witness :
    LevelSafe c1WitnessSt.secret.vix ∧ LevelSafe c1WitnessSt.secret.gvz
      ∧ C1Statement c1WitnessSt :=
  ⟨fun _ => ⟨_, rfl⟩, fun _ => ⟨_, rfl⟩,
   C1_derived_alert_recompute c1WitnessSt (fun _ => ⟨_, rfl⟩) (fun _ => ⟨_, rfl⟩)⟩

/-! ## Claim C2 — typed instrument payloads -/

/-- Helper: a typed payload whose upper-cased `type` is none of the twelve
names handled by `_parse_typed_payload` falls through unchanged (the final
silent-ignore return). -/
theorem parse_typed_unhandled (d : Payload) (s : St) (t : String)
    (ht : _normalise_str (pyGet d "type") = some t)
    (h : pyUpper (pyTrim t) ∉ (["CARD1", "MACRO_CARD1", "REGIME_VOL",
      "CARD2", "MACRO_CARD2", "CAPITAL_ROTATION", "CARD3", "MACRO_CARD3",
      "CYCLE_CLOCK", "CARD4", "MACRO_CARD4", "RECESSION_PULSE"] : List String)) :
    _parse_typed_payload d s = s := by
  unfold _parse_typed_payload
  rw [ht]
  simp only [List.mem_cons, List.not_mem_nil, or_false, not_or] at h
  obtain ⟨h1, h2, h3, h4, h5, h6, h7, h8, h9, h10, h11, h12⟩ := h
  simp [h1, h2, h3, h4, h5, h6, h7, h8, h9, h10, h11, h12]

/-- First scenario payload of claim C2. -/
def c2p1 : Payload :=
  [("type", .vstr "VIX"), ("value", .vfloat (mkRat 131 10)),
   ("level", .vint 6), ("state", .vstr "NORMAL")]

/-- Second scenario payload of claim C2. -/
def c2p2 : Payload :=
  [("type", .vstr "GVZ"), ("value", .vfloat (mkRat 236 10)),
   ("level", .vint 2), ("state", .vstr "EXTREME")]

/-- Final state of the C2 scenario via `/ingest_macro`. -/
def c2Final : St := ingestRoute 2 c2p2 (ingestRoute 1 c2p1 initSt)

/-- C2 counterexample: ingesting the VIX payload then the GVZ payload leaves
`secret.war` inactive with an empty reason — not the claimed
`active/"Institutional Y: 2"` — because `_parse_typed_payload` has no
VIX/GVZ/BUY/SELL/VOLD branch at all. -/
theorem C2_counterexample :
    c2Final.secret.war = .vdict [("active", .vbool false), ("reason", .vstr "")]
    ∧ c2Final.secret.war
        ≠ .vdict [("active", .vbool true), ("reason", .vstr "Institutional Y: 2")] := by
  constructor
  · rfl
  · rw [show c2Final.secret.war
        = .vdict [("active", .vbool false), ("reason", .vstr "")] from rfl]
    simp

/-- Expected secret block after the C2 scenario: instruments untouched, war
recomputed over null levels. -/
def c2ExpectedSecret : SecretS :=
  { initSt.secret with war := .vdict [("active", .vbool false), ("reason", .vstr "")] }

/-- Expected final state of the C2 scenario. -/
def c2Expected : St :=
  { initSt with server_ts := .vint 2, secret := c2ExpectedSecret }

/-- C2 amended: the typed dialect silently ignores the five instrument type
names (`_parse_typed_payload` has no branch for them), and the scenario's two
ingestions change nothing but the server timestamp and the recomputed-inactive
`secret.war`. -/
theorem C2_instrument_types_unhandled :
    (∀ (d : Payload) (s : St) (t : String),
        _normalise_str (pyGet d "type") = some t →
        (pyUpper (pyTrim t) = "VIX" ∨ pyUpper (pyTrim t) = "GVZ" ∨
         pyUpper (pyTrim t) = "BUY" ∨ pyUpper (pyTrim t) = "SELL" ∨
         pyUpper (pyTrim t) = "VOLD") →
        _parse_typed_payload d s = s)
    ∧ c2Final = c2Expected := by
  constructor
  · intro d s t ht hty
    refine parse_typed_unhandled d s t ht ?_
    rcases hty with h | h | h | h | h <;> rw [h] <;> decide
  · rfl

/-- Witness for the C2 amended theorem at a concrete payload. -/
theorem C2_instrument_types_unhandled_witness :
    _normalise_str (pyGet ([("type", Val.vstr "VIX")] : Payload) "type") = some "VIX"
    ∧ _parse_typed_payload [("type", Val.vstr "VIX")] initSt = initSt :=
  ⟨rfl, C2_instrument_types_unhandled.1 _ _ "VIX" rfl (Or.inl rfl)⟩

/-! ## Claim C3 — dialect precedence / flat-field merge -/

/-- The C3 scenario payload: a card-1 message plus a flat `cycle` field. -/
def c3Payload : Payload :=
  [("card", .vint 1), ("msg", .vstr "GOLD ELEVATED"), ("cycle", .vstr "SILVER")]

/-- C3 (code bug): on both routes the final `cycle` is `"GOLD"` (the card-1
token fallback), not the claimed `"SILVER"`: neither route ever calls
`_merge_field_payload` — `/ingest_macro` has only the dangling comment
`# field payloads` where the call should be, and the function is dead code.
The third conjunct shows the merge, had it been applied last as the spec
states, would indeed have produced `"SILVER"`. -/
theorem C3_flat_merge_not_invoked :
    (ingestRoute 1 c3Payload initSt).cycle = .vstr "GOLD"
    ∧ (webhookRoute 1 c3Payload initSt).cycle = .vstr "GOLD"
    ∧ (_merge_field_payload c3Payload (ingestRoute 1 c3Payload initSt)).cycle = .vstr "SILVER"
    ∧ (Val.vstr "GOLD") ≠ .vstr "SILVER" := by
  refine ⟨rfl, rfl, rfl, ?_⟩
  simp

/-! ## Claim C4 — sparse-merge invariant -/

/-- Prior secret block for the C4 counterexample: a non-null vix pack. -/
def c4PriorSecret : SecretS :=
  { initSt.secret with vix := .vdict [("level", .vint 6)] }

/-- Prior state for the C4 counterexample. -/
def c4Prior : St := { initSt with secret := c4PriorSecret }

/-- C4 counterexample payload: a secret block carrying an explicit null. -/
def c4Payload : Payload := [("secret", .vdict [("vix", .vnull)])]

/-- C4 counterexample: `/ingest_macro`'s secret-block merge copies a present
`null` verbatim, overwriting the existing non-null `secret.vix` — absent or
empty values do overwrite existing state in the secret block. -/
theorem C4_counterexample :
    c4Prior.secret.vix = .vdict [("level", .vint 6)]
    ∧ (ingestRoute 7 c4Payload c4Prior).secret.vix = .vnull
    ∧ Val.vdict [("level", .vint 6)] ≠ .vnull := by
  refine ⟨rfl, rfl, ?_⟩
  exact fun h => Val.noConfusion h

/-- An absent-or-empty payload slot as `dict.get` sees it. -/
def emptyIsh (v : Val) : Prop := v = .vnull ∨ v = .vstr ""

/-- Python `or` with a falsy left operand. -/
theorem vOr_null (b : Val) : vOr .vnull b = b := rfl

/-- Python `or` with an empty-string left operand. -/
theorem vOr_emptyStr (b : Val) : vOr (.vstr "") b = b := rfl

/-- `_safe_int` fails on the empty string. -/
theorem safe_int_emptyStr : _safe_int (.vstr "") = none := rfl

/-- `_safe_float` fails on the empty string. -/
theorem safe_float_emptyStr : _safe_float (.vstr "") = none := rfl

set_option maxHeartbeats 2000000 in
/-- C4 amended: the sparse-merge invariant does hold inside the flat-field
dialect `_merge_field_payload` — a canonical field is updated only when the
payload supplies a present, non-empty, convertible value under its key or an
alias; but it does not extend to the secret block, whose merge copies any
present value verbatim (final conjunct), including null. -/
theorem C4_sparse_merge_scope :
    (∀ (d : Payload) (s : St),
        _normalise_str (pyGet d "cycle") = none →
        _normalise_str (pyGet d "regime") = none →
        _normalise_str (pyGet d "cycle_regime") = none →
        (_merge_field_payload d s).cycle = s.cycle)
    ∧ (∀ (d : Payload) (s : St),
        _normalise_str (pyGet d "vol") = none →
        _normalise_str (pyGet d "volatility") = none →
        _normalise_str (pyGet d "vix_state") = none →
        (_merge_field_payload d s).vol = s.vol)
    ∧ (∀ (d : Payload) (s : St),
        _normalise_str (pyGet d "flow") = none →
        _normalise_str (pyGet d "rotation") = none →
        _normalise_str (pyGet d "capital_rotation") = none →
        (_merge_field_payload d s).flow = s.flow)
    ∧ (∀ (d : Payload) (s : St),
        emptyIsh (pyGet d "count") → emptyIsh (pyGet d "maturity") →
        emptyIsh (pyGet d "cycle_maturity") →
        (_merge_field_payload d s).count = s.count)
    ∧ (∀ (d : Payload) (s : St),
        emptyIsh (pyGet d "sahm") → emptyIsh (pyGet d "sahm_value") →
        emptyIsh (pyGet d "sahm_trigger") →
        (_merge_field_payload d s).sahm = s.sahm)
    ∧ (∀ (s : St) (v : Val) (now : Int),
        (ingestRoute now [("secret", .vdict [("vix", v)])] s).secret.vix = v) := by
  refine ⟨?_, ?_, ?_, ?_, ?_, ?_⟩
  · intro d s h1 h2 h3
    unfold _merge_field_payload
    dsimp only
    rw [h1, h2, h3]
    simp only [optOr]
    (repeat' split) <;> rfl
  · intro d s h1 h2 h3
    unfold _merge_field_payload
    dsimp only
    rw [h1, h2, h3]
    simp only [optOr]
    (repeat' split) <;> rfl
  · intro d s h1 h2 h3
    unfold _merge_field_payload
    dsimp only
    rw [h1, h2, h3]
    simp only [optOr]
    (repeat' split) <;> rfl
  · intro d s h1 h2 h3
    rcases h1 with h1 | h1 <;> rcases h2 with h2 | h2 <;> rcases h3 with h3 | h3 <;>
      · unfold _merge_field_payload
        dsimp only
        rw [h1, h2, h3]
        simp only [vOr_null, vOr_emptyStr, safe_int_emptyStr]
        (repeat' split) <;> rfl
  · intro d s h1 h2 h3
    rcases h1 with h1 | h1 <;> rcases h2 with h2 | h2 <;> rcases h3 with h3 | h3 <;>
      · unfold _merge_field_payload
        dsimp only
        rw [h1, h2, h3]
        simp only [vOr_null, vOr_emptyStr, safe_float_emptyStr]
        (repeat' split) <;> rfl
  · intro s v now
    rfl

/-- Witness for the C4 amended theorem: an empty-string `count` (with an
unrelated present field) leaves `count` untouched. -/
theorem C4_sparse_merge_scope_witness :
    emptyIsh (pyGet ([("count", Val.vstr ""), ("flow", Val.vstr "IN")] : Payload) "count")
    ∧ (_merge_field_payload [("count", Val.vstr ""), ("flow", Val.vstr "IN")] initSt).count
        = initSt.count :=
  ⟨Or.inr rfl,
   C4_sparse_merge_scope.2.2.2.1 _ _ (Or.inr rfl) (Or.inl rfl) (Or.inl rfl)⟩

/-! ## Claim C5 — typed MACRO/MASTER handling -/

/-- A MACRO payload exercising every field claim C5 says the handler reads. -/
def c5Payload : Payload :=
  [("type", .vstr "MACRO"), ("regime", .vstr "expansion"),
   ("cycle", .vint 60), ("sahm", .vfloat (mkRat 42 100))]

/-- C5 counterexample: a `type: MACRO` payload is silently ignored by
`_parse_typed_payload` — no regime upper-casing, no cycle clamp/mirror, no
sahm coercion; the state is returned unchanged. -/
theorem C5_counterexample :
    _parse_typed_payload c5Payload initSt = initSt
    ∧ (_parse_typed_payload c5Payload initSt).regime ≠ .vstr "EXPANSION"
    ∧ (_parse_typed_payload c5Payload initSt).count = .vnull := by
  refine ⟨rfl, ?_, rfl⟩
  rw [show (_parse_typed_payload c5Payload initSt).regime = Val.vnull from rfl]
  exact fun h => Val.noConfusion h

/-- C5 amended: types `MACRO` and `MASTER` are not recognised by the typed
dialect; such payloads fall through `_parse_typed_payload` with the state
unchanged. -/
theorem C5_macro_master_unhandled :
    ∀ (d : Payload) (s : St) (t : String),
      _normalise_str (pyGet d "type") = some t →
      (pyUpper (pyTrim t) = "MACRO" ∨ pyUpper (pyTrim t) = "MASTER") →
      _parse_typed_payload d s = s := by
  intro d s t ht hty
  refine parse_typed_unhandled d s t ht ?_
  rcases hty with h | h <;> rw [h] <;> decide

/-- Witness for the C5 amended theorem. -/
theorem C5_macro_master_unhandled_witness :
    _normalise_str (pyGet c5Payload "type") = some "MACRO"
    ∧ _parse_typed_payload c5Payload initSt = initSt :=
  ⟨rfl, C5_macro_master_unhandled c5Payload initSt "MACRO" rfl (Or.inl rfl)⟩

/-! ## Claim C6 — count range invariant -/

/-- The claimed invariant on `STATE["count"]`: null, or an integer in
[0,100]. -/
def countInv (s : St) : Prop :=
  s.count = .vnull ∨ ∃ n : Int, s.count = .vint n ∧ 0 ≤ n ∧ n ≤ 100

/-- Clamping into [0,100] never exceeds 100. -/
theorem clamp_0_100_le (c : Int) : _clamp_int c 0 100 ≤ 100 := by
  simp only [_clamp_int]
  omega

/-- Clamping into [0,100] is non-negative. -/
theorem clamp_0_100_nonneg (c : Int) : 0 ≤ _clamp_int c 0 100 := by
  simp only [_clamp_int]
  omega

/-- Every flat-field merge preserves the count invariant: it writes `count`
only through `_clamp_int`. -/
theorem merge_preserves_countInv (d : Payload) (s : St) (h : countInv s) :
    countInv (_merge_field_payload d s) := by
  unfold _merge_field_payload
  dsimp only
  (repeat' split) <;>
    first
      | exact h
      | exact Or.inr ⟨_, rfl, clamp_0_100_nonneg _, clamp_0_100_le _⟩

set_option maxHeartbeats 3200000 in
/-- Every typed-dialect parse preserves the count invariant. -/
theorem typed_preserves_countInv (d : Payload) (s : St) (h : countInv s) :
    countInv (_parse_typed_payload d s) := by
  unfold _parse_typed_payload
  dsimp only
  split
  · exact h
  rename_i t heq
  by_cases h1 : pyUpper (pyTrim t) = "CARD1" ∨ pyUpper (pyTrim t) = "MACRO_CARD1"
      ∨ pyUpper (pyTrim t) = "REGIME_VOL"
  · rw [if_pos h1]
    (repeat' split) <;> exact h
  rw [if_neg h1]
  by_cases h2 : pyUpper (pyTrim t) = "CARD2" ∨ pyUpper (pyTrim t) = "MACRO_CARD2"
      ∨ pyUpper (pyTrim t) = "CAPITAL_ROTATION"
  · rw [if_pos h2]
    (repeat' split) <;> exact h
  rw [if_neg h2]
  by_cases h3 : pyUpper (pyTrim t) = "CARD3" ∨ pyUpper (pyTrim t) = "MACRO_CARD3"
      ∨ pyUpper (pyTrim t) = "CYCLE_CLOCK"
  · rw [if_pos h3]
    (repeat' split) <;>
      first
        | exact h
        | exact Or.inr ⟨_, rfl, clamp_0_100_nonneg _, clamp_0_100_le _⟩
  rw [if_neg h3]
  by_cases h4 : pyUpper (pyTrim t) = "CARD4" ∨ pyUpper (pyTrim t) = "MACRO_CARD4"
      ∨ pyUpper (pyTrim t) = "RECESSION_PULSE"
  · rw [if_pos h4]
    (repeat' split) <;> exact h
  rw [if_neg h4]
  exact h

set_option maxHeartbeats 3200000 in
/-- Every numbered-card parse preserves the count invariant. -/
theorem card_preserves_countInv (d : Payload) (s : St) (h : countInv s) :
    countInv (_parse_card_payload d s) := by
  unfold _parse_card_payload
  dsimp only
  split
  · exact h
  rename_i card_n hcard
  by_cases h1 : card_n = 1 ∧ (_normalise_str (pyGet d "msg")).getD "" ≠ ""
  · rw [if_pos h1]
    (repeat' split) <;> exact h
  rw [if_neg h1]
  by_cases h2 : card_n = 2 ∧ (_normalise_str (pyGet d "msg")).getD "" ≠ ""
  · rw [if_pos h2]
    exact h
  rw [if_neg h2]
  by_cases h3 : card_n = 3
  · rw [if_pos h3]
    (repeat' split) <;>
      first
        | exact h
        | exact Or.inr ⟨_, rfl, clamp_0_100_nonneg _, clamp_0_100_le _⟩
  rw [if_neg h3]
  by_cases h4 : card_n = 4
  · rw [if_pos h4]
    (repeat' split) <;> exact h
  rw [if_neg h4]
  by_cases h5 : card_n = 5 ∨ card_n = 6 ∨ card_n = 7 ∨ card_n = 8 ∨ card_n = 9
  · rw [if_pos h5]
    (repeat' split) <;> exact h
  rw [if_neg h5]
  exact h

/-- The C6 counterexample snapshot: an out-of-range count with a recent
timestamp. -/
def c6Snapshot : Val :=
  .vdict [("count", .vint 150), ("_server_ts", .vint 1700000000000)]

/-- C6 counterexample: snapshot hydration copies an out-of-range `count`
verbatim — `_load_state_from_disk` never clamps — so the claimed invariant
fails after hydrating a foreign snapshot, and the result differs from what
clamping would have produced. -/
theorem C6_counterexample :
    (_load_state_from_disk c6Snapshot (mkRat 1700000001 1) initSt).count = .vint 150
    ∧ Val.vint 150 ≠ .vint (_clamp_int 150 0 100)
    ∧ ¬ countInv (_load_state_from_disk c6Snapshot (mkRat 1700000001 1) initSt) := by
  have hA : (_load_state_from_disk c6Snapshot (mkRat 1700000001 1) initSt).count
      = .vint 150 := by
    simp [_load_state_from_disk, c6Snapshot, snapshotStale, _normalise_server_ts,
      pyInt, pyGet, pyLookup]
    norm_num [STATE_MAX_AGE_SECS]
    rfl
  refine ⟨hA, ?_, ?_⟩
  · intro h
    injection h with h2
    rw [show _clamp_int 150 0 100 = 100 from rfl] at h2
    omega
  · intro h
    rw [countInv, hA] at h
    rcases h with h | ⟨n, hn, _, h100⟩
    · exact Val.noConfusion h
    · injection hn with h2
      omega

/-- C6 amended: the clamp has the claimed properties, and all three payload
dialects only ever write `count` through it, preserving the [0,100]-or-null
invariant; but snapshot hydration (`_load_state_from_disk`) copies `count`
verbatim without clamping (see the counterexample), so the invariant is
maintained by the dialects yet not enforced on hydrated snapshots. -/
theorem C6_count_clamped :
    (∀ n : Int, _clamp_int n 0 100 ≤ 100 ∧ 0 ≤ _clamp_int n 0 100
      ∧ (0 ≤ n → n ≤ 100 → _clamp_int n 0 100 = n))
    ∧ (∀ (d : Payload) (s : St), countInv s →
        countInv (_merge_field_payload d s)
        ∧ countInv (_parse_typed_payload d s)
        ∧ countInv (_parse_card_payload d s)) := by
  constructor
  · intro n
    refine ⟨clamp_0_100_le n, clamp_0_100_nonneg n, ?_⟩
    intro h0 h100
    simp only [_clamp_int]
    omega
  · intro d s h
    exact ⟨merge_preserves_countInv d s h, typed_preserves_countInv d s h,
      card_preserves_countInv d s h⟩

/-- Witness for the C6 amended theorem: card 3 clamps an out-of-range 187%
to within the invariant. -/
theorem C6_count_clamped_witness :
    countInv initSt
    ∧ countInv (_parse_card_payload
        [("card", Val.vint 3), ("msg", Val.vstr "MATURITY 187%")] initSt) :=
  ⟨Or.inl rfl,
   (C6_count_clamped.2 [("card", Val.vint 3), ("msg", Val.vstr "MATURITY 187%")]
      initSt (Or.inl rfl)).2.2⟩

/-! ## Claim C7 — snapshot round trip -/

/-- Conclusion of the C7 amended claim at `s` (the saved state), `cur` (the
running state being hydrated) and wall clock `now`: the loader restores
`cycle`/`vol`/`flow`/`count`/`sahm`/`_server_ts` and all six secret slots
field-for-field, while `card2` and `spx_dd` keep the pre-load values. -/
def C7Restored (s cur : St) (now : ℚ) : Prop :=
  (_load_state_from_disk (_save_state_to_disk s) now cur).cycle = s.cycle
  ∧ (_load_state_from_disk (_save_state_to_disk s) now cur).vol = s.vol
  ∧ (_load_state_from_disk (_save_state_to_disk s) now cur).flow = s.flow
  ∧ (_load_state_from_disk (_save_state_to_disk s) now cur).count = s.count
  ∧ (_load_state_from_disk (_save_state_to_disk s) now cur).sahm = s.sahm
  ∧ (_load_state_from_disk (_save_state_to_disk s) now cur).server_ts = s.server_ts
  ∧ (_load_state_from_disk (_save_state_to_disk s) now cur).secret.vix = s.secret.vix
  ∧ (_load_state_from_disk (_save_state_to_disk s) now cur).secret.gvz = s.secret.gvz
  ∧ (_load_state_from_disk (_save_state_to_disk s) now cur).secret.buy = s.secret.buy
  ∧ (_load_state_from_disk (_save_state_to_disk s) now cur).secret.sell = s.secret.sell
  ∧ (_load_state_from_disk (_save_state_to_disk s) now cur).secret.vold = s.secret.vold
  ∧ (_load_state_from_disk (_save_state_to_disk s) now cur).secret.war = s.secret.war
  ∧ (_load_state_from_disk (_save_state_to_disk s) now cur).card2 = cur.card2
  ∧ (_load_state_from_disk (_save_state_to_disk s) now cur).spx_dd = cur.spx_dd

/-- The saved `card2` record for the C7 counterexample. -/
def c7Card2 : Card2S := { initSt.card2 with c2text := .vstr "HELLO" }

/-- State whose nested `card2.text` is set, with a recent timestamp. -/
def c7CeState : St :=
  { initSt with card2 := c7Card2, server_ts := .vint 1700000000000 }

/-- C7 counterexample: `save` writes `card2` to disk, but `load` never reads
it back — one second later, within the staleness window, the hydrated state
has lost `card2.text`, so the round trip is not field-for-field for the full
canonical state. -/
theorem C7_counterexample :
    c7CeState.card2.c2text = .vstr "HELLO"
    ∧ (_load_state_from_disk (_save_state_to_disk c7CeState)
        (mkRat 1700000001 1) initSt).card2.c2text = .vnull
    ∧ Val.vnull ≠ .vstr "HELLO" := by
  refine ⟨rfl, ?_, fun h => Val.noConfusion h⟩
  simp [_load_state_from_disk, _save_state_to_disk, c7CeState, snapshotStale,
    _normalise_server_ts, pyInt, pyGet, pyLookup]
  norm_num [STATE_MAX_AGE_SECS]
  rfl

/-- C7 amended: within the staleness window, `save` followed by `load`
reproduces exactly the subset the loader restores — the five flat fields,
`_server_ts` and the six secret slots — while `card2` and `spx_dd` are not
restored and keep the hydrating state's values. -/
theorem C7_round_trip_subset (s cur : St) (now : ℚ)
    (hfresh : snapshotStale (_normalise_server_ts s.server_ts) now = false) :
    C7Restored s cur now := by
  unfold C7Restored
  have h1 : _load_state_from_disk (_save_state_to_disk s) now cur
      = if snapshotStale (_normalise_server_ts s.server_ts) now = true then cur
        else withSecret
            { vix := s.secret.vix, gvz := s.secret.gvz, buy := s.secret.buy,
              sell := s.secret.sell, vold := s.secret.vold, war := s.secret.war }
          (withServerTs s.server_ts (withSahm s.sahm (withCount s.count
            (withFlow s.flow (withVol s.vol (withCycle s.cycle cur)))))) := rfl
  rw [h1, hfresh]
  simp only [Bool.false_eq_true, if_false]
  exact ⟨rfl, rfl, rfl, rfl, rfl, rfl, rfl, rfl, rfl, rfl, rfl, rfl, rfl, rfl⟩

/-- Witness for the C7 amended theorem: a state with a null timestamp (the
loader then skips the staleness check entirely). -/
theorem C7_round_trip_subset_witness :
    snapshotStale (_normalise_server_ts ({ initSt with flow := Val.vstr "UP" } : St).server_ts) 0 = false
    ∧ C7Restored { initSt with flow := Val.vstr "UP" } initSt 0 :=
  ⟨rfl, C7_round_trip_subset { initSt with flow := Val.vstr "UP" } initSt 0 rfl⟩

/-! ## Claim C8 — payload acquisition policy -/

/-- A `json.loads` model that can parse exactly one document — the raw body
used in the C8 counterexample — and fails on everything else. -/
def c8jloads : String → Option Val :=
  fun s => if s = "\x7b\"a\": 1\x7d" then some (.vdict [("a", .vint 1)]) else none

/-- C8 counterexample: with a one-field form whose value starts with a brace
but fails to parse, `_get_payload_any` returns the form map itself — it does
not fall through to the raw-body parse (which here would have succeeded and
produced a different payload, as the second conjunct shows). -/
theorem C8_counterexample :
    _get_payload_any c8jloads none [("payload", "\x7bnot json")] "\x7b\"a\": 1\x7d"
      = .ok [("payload", .vstr "\x7bnot json")]
    ∧ _get_payload_any c8jloads none [] "\x7b\"a\": 1\x7d" = .ok [("a", .vint 1)]
    ∧ (Except.ok [("payload", Val.vstr "\x7bnot json")] : Except PayloadErr Payload)
        ≠ .ok [("a", .vint 1)] := by
  refine ⟨rfl, rfl, ?_⟩
  intro h
  injection h with h2
  simp at h2

/-- C8 amended: for a body with exactly one form field whose value starts
with a brace, a successful dict parse of that value is returned, but a parse
failure (or non-dict parse) yields the one-field form map itself — the
raw-body parse and the `InvalidPayload` failure are reachable only when
there is no form data at all. -/
theorem C8_one_field_form_fallback :
    ∀ (jloads : String → Option Val) (k v raw : String),
      (pyTrim v).data.headD ' ' = '\x7b' →
      ((∀ l, jloads v ≠ some (.vdict l)) →
          _get_payload_any jloads none [(k, v)] raw = .ok [(k, .vstr v)])
      ∧ (∀ l, jloads v = some (.vdict l) →
          _get_payload_any jloads none [(k, v)] raw = .ok l) := by
  intro jloads k v raw hbrace
  constructor
  · intro hfail
    unfold _get_payload_any
    dsimp only
    rw [if_pos hbrace]
    rcases hj : jloads v with _ | w
    · rfl
    · cases w
      case vdict l => exact absurd hj (hfail l)
      all_goals rfl
  · intro l hl
    unfold _get_payload_any
    dsimp only
    rw [if_pos hbrace, hl]
    rfl

/-- Witness for the C8 amended theorem: an always-failing parser on a
brace-initial one-field form. -/
theorem C8_one_field_form_fallback_witness :
    (pyTrim "\x7bbad").data.headD ' ' = '\x7b'
    ∧ _get_payload_any (fun _ => none) none [("payload", "\x7bbad")] ""
        = .ok [("payload", .vstr "\x7bbad")] :=
  ⟨rfl, (C8_one_field_form_fallback (fun _ => none) "payload" "\x7bbad" "" rfl).1
    (fun _ h => Option.noConfusion h)⟩

/-! ## Claim C9 — verify_secret rate limiting -/

/-- Seven correct-password attempts in quick succession. -/
def c9Correct : List (ℚ × Option String) :=
  [(0, some "toffees"), (1, some "toffees"), (2, some "toffees"),
   (3, some "toffees"), (4, some "toffees"), (5, some "toffees"),
   (6, some "toffees")]

/-- C9 counterexample: seven attempts with the correct password inside one
window all return 200 — the 7th is not refused with 429, because successful
attempts are never recorded in the limiter's history. -/
theorem C9_counterexample :
    (runAttempts "toffees" [] c9Correct).2 = [200, 200, 200, 200, 200, 200, 200]
    ∧ (200 : ℕ) ≠ 429 := by
  constructor
  · norm_num [c9Correct, runAttempts, verify_secret]
  · decide

/-- C9 amended: with six or more recorded (failed) attempts remaining in the
rolling 5-minute window, any further attempt returns 429 regardless of the
password; below that, a match returns `200 ok:true` and is not recorded,
while a mismatch returns `401 ok:false` and is appended to the history. -/
theorem C9_rate_limit_failed_attempts :
    ∀ (stored : List ℚ) (now : ℚ) (password : Option String) (vault : String),
      (6 ≤ (stored.filter (fun t => decide (now - t < 300))).length →
        (verify_secret stored now password vault).status = 429)
      ∧ ((stored.filter (fun t => decide (now - t < 300))).length < 6 →
          password = some vault →
          (verify_secret stored now password vault).status = 200
          ∧ (verify_secret stored now password vault).okField = true
          ∧ (verify_secret stored now password vault).history
              = stored.filter (fun t => decide (now - t < 300)))
      ∧ ((stored.filter (fun t => decide (now - t < 300))).length < 6 →
          password ≠ some vault →
          (verify_secret stored now password vault).status = 401
          ∧ (verify_secret stored now password vault).okField = false
          ∧ (verify_secret stored now password vault).history
              = stored.filter (fun t => decide (now - t < 300)) ++ [now]) := by
  intro stored now password vault
  refine ⟨?_, ?_, ?_⟩
  · intro h
    unfold verify_secret
    dsimp only
    rw [if_pos h]
  · intro h hpw
    unfold verify_secret
    dsimp only
    rw [if_neg (not_le.2 h), if_pos hpw]
    exact ⟨rfl, rfl, rfl⟩
  · intro h hpw
    unfold verify_secret
    dsimp only
    rw [if_neg (not_le.2 h), if_neg hpw]
    exact ⟨rfl, rfl, rfl⟩

/-- Witness for the C9 amended theorem: six in-window recorded attempts make
the next request 429 even with the correct password. -/
theorem C9_rate_limit_failed_attempts_witness :
    6 ≤ (([0, 0, 0, 0, 0, 0] : List ℚ).filter
        (fun t => decide ((0 : ℚ) - t < 300))).length
    ∧ (verify_secret [0, 0, 0, 0, 0, 0] 0 (some "toffees") "toffees").status = 429 := by
  have h6 : 6 ≤ (([0, 0, 0, 0, 0, 0] : List ℚ).filter
      (fun t => decide ((0 : ℚ) - t < 300))).length := by
    norm_num [List.filter]
  exact ⟨h6, (C9_rate_limit_failed_attempts [0, 0, 0, 0, 0, 0] 0
    (some "toffees") "toffees").1 h6⟩

/-! ## Claim C10 — card-2 dispatch on /webhook -/

set_option maxHeartbeats 3200000 in
/-- The pine block never writes `flow` when the payload has no `rot_dir`
key. -/
theorem webhookPine_flow (d : Payload) (s : St)
    (hr : pyLookup d "rot_dir" = none) :
    (webhookPine d s).flow = s.flow := by
  unfold webhookPine
  dsimp only
  simp only [hasKey, hr, Option.isSome, Bool.false_eq_true, if_false]
  (repeat' split) <;> rfl

/-- The canonical CARD2 section never writes `flow`. -/
theorem webhookCard2Stage_flow (typ : String) (d : Payload) (s : St) :
    (webhookCard2Stage typ d s).flow = s.flow := by
  unfold webhookCard2Stage
  (repeat' split) <;> rfl

/-- The alert recomputation never writes `flow`. -/
theorem recompute_flow (s : St) : (_recompute_war_from_secret s).flow = s.flow := rfl

/-- Prior state for the C10 counterexample. -/
def c10Prior : St := { initSt with flow := .vstr "OLD FLOW" }

/-- C10 counterexample payload: card 2 with a msg, but also a `rot_dir`. -/
def c10Payload : Payload :=
  [("card", .vint 2), ("msg", .vstr "NEW"), ("rot_dir", .vstr "INTO BONDS")]

/-- C10 counterexample: a payload whose card field equals 2 can still change
the legacy `flow` on `/webhook` — the pine block copies `rot_dir` into
`flow` before the card dispatch is even consulted. -/
theorem C10_counterexample :
    (webhookRoute 9 c10Payload c10Prior).flow = .vstr "INTO BONDS"
    ∧ Val.vstr "INTO BONDS" ≠ .vstr "OLD FLOW" := by
  refine ⟨rfl, ?_⟩
  intro h
  injection h with h2
  simp at h2

/-- C10 amended: on `/webhook`, a card-2 payload is never dispatched to the
numbered-card parser, and when it carries no `type` or `rot_dir` key (the
other writers of `flow` on this route) the legacy `flow` is left unchanged;
the card-2 msg-verbatim-to-flow behaviour runs only on `/ingest_macro`,
where the same payload sets `flow` to the message. -/
theorem C10_card2_webhook_scope :
    (∀ (p : Payload) (s : St) (now : Int),
        unwrapEnvelope p = p →
        pyLookup p "type" = none →
        pyLookup p "rot_dir" = none →
        _safe_int (pyGet p "card") = some 2 →
        (webhookRoute now p s).flow = s.flow)
    ∧ (∀ (s : St) (now : Int) (m : String),
        _normalise_str (.vstr m) = some m →
        (ingestRoute now [("card", .vint 2), ("msg", .vstr m)] s).flow = .vstr m) := by
  constructor
  · intro p s now hu ht hr hc
    unfold webhookRoute
    dsimp only
    rw [hu]
    have htyp : pyUpper (pyTrim (pyStr (vOr (pyGet p "type") (.vstr "")))) = "" := by
      simp [pyGet, ht, vOr, truthy, pyStr, pyTrim, trimChars, pyUpper]
    rw [htyp]
    rw [if_neg (by decide : ¬ (("" : String) = "SCADA_STATUS" ∨ ("" : String) = "WATCH"))]
    have hck : hasKey p "card" = true := by
      unfold hasKey
      cases hl : pyLookup p "card" with
      | none =>
        exfalso
        rw [show pyGet p "card" = .vnull by simp [pyGet, hl]] at hc
        rw [show _safe_int Val.vnull = none from rfl] at hc
        exact Option.noConfusion hc
      | some v => rfl
    simp only [hasKey, ht, Option.isSome, Bool.false_eq_true, if_false]
    rw [recompute_flow]
    have hck2 : (pyLookup p "card").isSome = true := hck
    simp only [hck2, hc]
    rw [ite_self]
    rw [webhookCard2Stage_flow, webhookPine_flow _ _ hr]
    rfl
  · intro s now m hm
    have hne : m ≠ "" := by
      intro he
      rw [he] at hm
      rw [show _normalise_str (Val.vstr "") = none from rfl] at hm
      exact Option.noConfusion hm
    change (_recompute_war_from_secret (_parse_card_payload
        [("card", Val.vint 2), ("msg", Val.vstr m)]
        (withServerTs (Val.vint now) s))).flow = Val.vstr m
    rw [recompute_flow]
    unfold _parse_card_payload
    simp only [show _safe_int (pyGet ([("card", Val.vint 2), ("msg", Val.vstr m)]
        : Payload) "card") = some 2 from rfl]
    try dsimp only
    simp only [show pyGet ([("card", Val.vint 2), ("msg", Val.vstr m)]
        : Payload) "msg" = Val.vstr m from rfl, hm]
    rw [if_neg (by simp : ¬ ((2 : Int) = 1 ∧ (some m).getD "" ≠ ""))]
    rw [if_pos ⟨trivial, (by simpa using hne : (some m).getD "" ≠ "")⟩]
    rfl

/-- Witness for the C10 amended theorem: a plain card-2 payload leaves
`flow` untouched on `/webhook`. -/
theorem C10_card2_webhook_scope_witness :
    unwrapEnvelope [("card", Val.vint 2), ("msg", Val.vstr "HI")]
        = [("card", Val.vint 2), ("msg", Val.vstr "HI")]
    ∧ _safe_int (pyGet [("card", Val.vint 2), ("msg", Val.vstr "HI")] "card") = some 2
    ∧ (webhookRoute 3 [("card", Val.vint 2), ("msg", Val.vstr "HI")] c10Prior).flow
        = c10Prior.flow :=
  ⟨rfl, rfl, C10_card2_webhook_scope.1 [("card", Val.vint 2), ("msg", Val.vstr "HI")]
    c10Prior 3 rfl rfl rfl rfl⟩

end MarkMon

